import Mathlib

/-
Verification of pyxides/typing.py: a shallow embedding of the module's two
components, the `OfTypes` metaclass factory (class synthesis: allow-list
consolidation, narrowing check, base reordering) and the `_TypeEnforcer`
runtime mixin (per-item type checking for init/append/extend with a
configurable severity action).

Modelling conventions:
- Python classes appearing as *items* are abstracted by `PyType`, a small
  universe closed under the subclass relationships the module exercises
  (`bool <: int`, everything `<: object`).  `isSubclass` models Python's
  `issubclass`, `pyIsInstance` models `isinstance(obj, tuple_of_types)`.
- Python exceptions are values of `PyErr`; a function that can raise returns
  `Except PyErr _` or carries an `Option PyErr` component.
- Warning emission is modelled by returning the list of warning messages the
  call emits (the `warnings.catch_warnings` block in `checks_type` opens a
  fresh context per item, and every message contains the item index, so the
  `once` filter can never suppress anything; plain emission is faithful).
- A generator consumed by `list(...)`/`list.extend` is modelled by running it
  to completion or to its first raise, returning the yielded prefix.
-/

/-- Universe of Python types used by the module's scenarios.  Mirrors the
subclass facts of the actual classes: `bool` is a subclass of `int`, and every
type is a subclass of `object`. -/
inductive PyType
  | obj
  | intT
  | boolT
  | floatT
  | strT
  deriving DecidableEq

/-- `__name__` of each modelled type. -/
def PyType.name : PyType → String
  | .obj => "object"
  | .intT => "int"
  | .boolT => "bool"
  | .floatT => "float"
  | .strT => "str"

/-- Python `issubclass` on the modelled universe (reflexive; `bool <: int`;
everything a subclass of `object`). -/
def isSubclass : PyType → PyType → Bool
  | _, .obj => true
  | .intT, .intT => true
  | .boolT, .boolT => true
  | .boolT, .intT => true
  | .floatT, .floatT => true
  | .strT, .strT => true
  | _, _ => false

/-- A Python object: its runtime type plus an identity tag (so that distinct
objects of the same type exist in the model). -/
structure PyObj where
  ty : PyType
  val : Nat
  deriving DecidableEq

/-- A Python value appearing as the `i`/`severity` argument of
`check_type`/`type_checking`: an int or a str. -/
inductive PyVal
  | intv (n : Int)
  | strv (s : String)
  deriving DecidableEq

/-- Python `str()` of a `PyVal`. -/
def pyStrOf : PyVal → String
  | .intv n => toString n
  | .strv s => s

/-- Python truthiness of a `PyVal` (`bool(i)`). -/
def pyTruthy : PyVal → Bool
  | .intv n => n != 0
  | .strv s => s != ""

/-- Python `repr` of a string (single-quoted). -/
def pyReprStr (s : String) : String :=
  "\x27" ++ s ++ "\x27"

/-- Python `str`/`repr` of a class object, e.g. `<class int>` with quotes. -/
def typeRepr (t : PyType) : String :=
  "<class \x27" ++ t.name ++ "\x27>"

/-- Python exceptions raised by the module's code paths. -/
inductive PyErr
  | typeError (msg : String)
  | valueError (msg : String)
  | indexError (msg : String)
  | keyError
  | unboundLocal
  deriving DecidableEq

/-- Accumulating decimal-digit parser (helper for `pyParseInt`). -/
def digitsVal (acc : Nat) : List Char → Option Nat
  | [] => some acc
  | c :: cs => if c.isDigit then digitsVal (acc * 10 + (c.toNat - 48)) cs else none

/-- Python `int(s)` on a string: an optional minus sign followed by decimal
digits parses; anything else (e.g. `int("warn")`) is a `ValueError`. -/
def pyParseInt (s : String) : Option Int :=
  match s.toList with
  | [] => none
  | c :: cs =>
    if c = Char.ofNat 45 then
      match cs with
      | [] => none
      | _ => (digitsVal 0 cs).map (fun n => -(n : Int))
    else (digitsVal 0 (c :: cs)).map (fun n => (n : Int))

/-- Python `int(x)` on the values `type_checking` receives: ints pass through,
strings are parsed (`int("warn")` raises `ValueError`). -/
def pyIntOf : PyVal → Except PyErr Int
  | .intv n => .ok n
  | .strv s =>
    match pyParseInt s with
    | some n => .ok n
    | none => .error (.valueError ("invalid literal for int() with base 10: " ++ pyReprStr s))

/-- The three emit actions of `_TypeEnforcer._actions`:
`echo0` (silently ignore), `warnings.warn`, `raises(TypeError)`. -/
inductive EmitKind
  | echo
  | warn
  | raiseTE
  deriving DecidableEq

/-- `_TypeEnforcer._actions`: the dict mapping -1/0/1 to an emit action;
any other key is a `KeyError` (modelled as `none`). -/
def _actions (n : Int) : Option EmitKind :=
  if n = -1 then some .echo
  else if n = 0 then some .warn
  else if n = 1 then some .raiseTE
  else none

/-- `recipes.iter.first_true_index` (external dependency of the module):
index of the first truthy element, `None` if there is none. -/
def first_true_index (l : List Bool) : Option Nat :=
  l.findIdx? id

/-- The class-level data of a synthesized enforcer class: `__name__`,
`_allowed_types` and the current `emit` action (class attribute, default
`_actions[1]`, i.e. raise). -/
structure EnfClass where
  name : String
  allowed : List PyType
  emit : EmitKind
  deriving DecidableEq

/-- `_TypeEnforcer.type_checking(severity)`:
`cls.emit = staticmethod(cls._actions[int(severity)])`.
Returns the class with its `emit` attribute updated, or the exception raised
by `int(...)` / the dict lookup. -/
def type_checking (cls : EnfClass) (severity : PyVal) : Except PyErr EnfClass :=
  match pyIntOf severity with
  | .error e => .error e
  | .ok n =>
    match _actions n with
    | none => .error .keyError
    | some a => .ok { cls with emit := a }

/-- `isinstance(obj, self._allowed_types)`: true iff the object's type is a
subclass of some member of the tuple. -/
def pyIsInstance (o : PyObj) (ts : List PyType) : Bool :=
  ts.any (fun t => isSubclass o.ty t)

/-- The diagnostic message built by `check_type` (the two f-string lines):
`Items in container class {name!r} must derive from {"one of" if many else ""}
 {ok}. Item {i}{" " * bool(i)} is of type {type(obj)!r}.` -/
def itemMsg (clsName : String) (many : Bool) (okStr : String) (i : PyVal) (t : PyType) : String :=
  "Items in container class " ++ pyReprStr clsName ++ " must derive from " ++
    (if many then "one of" else "") ++ " " ++ okStr ++ ". Item " ++ pyStrOf i ++
    (if pyTruthy i then " " else "") ++ " is of type " ++ typeRepr t ++ "."

/-- `_TypeEnforcer.check_type(obj, i, emit)`.  On success (or when the
resolved action is `echo0`) returns the warnings emitted (none); under the
warn action returns the single diagnostic; under the raise action raises
`TypeError`.  NOTE the faithful modelling of
`ok = self._allowed_types[... if many else 0]`: with more than one allowed
type the tuple is indexed with `Ellipsis`, which raises
`TypeError: tuple indices must be integers or slices, not ellipsis` before
any message is built. -/
def check_type (cls : EnfClass) (obj : PyObj) (i : PyVal) (emitArg : Option EmitKind) :
    Except PyErr (List String) :=
  if pyIsInstance obj cls.allowed then .ok []
  else
    let emit := emitArg.getD cls.emit
    if emit = .echo then .ok []
    else
      let many := decide (cls.allowed.length > 1)
      if many then
        .error (.typeError "tuple indices must be integers or slices, not ellipsis")
      else
        match cls.allowed with
        | [] => .error (.indexError "tuple index out of range")
        | okT :: _ =>
          let msg := itemMsg cls.name many (typeRepr okT) i obj.ty
          match emit with
          | .warn => .ok [msg]
          | _ => .error (.typeError msg)

/-- Resolution of the per-call flags of `checks_type`:
if all of `raises`/`warns`/`silent` are `None`, default to `raises=True`;
then `emit = self._actions[1 - first_true_index((raises, warns, silent))]`
(a `None` result of `first_true_index` would make `1 - None` raise
`TypeError`; a key outside the dict raises `KeyError`). -/
def resolveEmit (raises warns silent : Option Bool) : Except PyErr EmitKind :=
  let raises := if raises.isNone && warns.isNone && silent.isNone then some true else raises
  match first_true_index [raises.getD false, warns.getD false, silent.getD false] with
  | none => .error (.typeError "unsupported operand type(s) for -: \x27int\x27 and \x27NoneType\x27")
  | some idx =>
    match _actions (1 - (idx : Int)) with
    | none => .error .keyError
    | some a => .ok a

/-- One full consumption of the generator body of `checks_type`: checks each
item in order with the resolved emit action, yielding it afterwards; stops at
the first raised exception.  Returns (yielded items, warnings emitted, raised
exception if any). -/
def checksTypeRun (cls : EnfClass) (emit : EmitKind) :
    Int → List PyObj → List PyObj × List String × Option PyErr
  | _, [] => ([], [], none)
  | i, o :: rest =>
    match check_type cls o (PyVal.intv i) (some emit) with
    | .error e => ([], [], some e)
    | .ok ws =>
      match checksTypeRun cls emit (i + 1) rest with
      | (ys, ws2, err) => (o :: ys, ws ++ ws2, err)

/-- `_TypeEnforcer.checks_type(itr, raises, warns, silent)`, run to
exhaustion by its consumer (`list(...)` in `__init__`, `list.extend` in
`extend`). -/
def checks_type (cls : EnfClass) (itr : List PyObj) (raises warns silent : Option Bool) :
    List PyObj × List String × Option PyErr :=
  match resolveEmit raises warns silent with
  | .error e => ([], [], some e)
  | .ok emit => checksTypeRun cls emit 0 itr

/-- A container instance: its class-level configuration and the stored items
(`self.data` of the `UserList` collaborator). -/
structure EnfState where
  cls : EnfClass
  data : List PyObj
  deriving DecidableEq

/-- `_TypeEnforcer.__init__(items)`:
`super().__init__(self.checks_type(items))`, i.e. `UserList.__init__` runs
`list(generator)`.  If the generator raises, the exception propagates and no
items are stored (`list(...)` discards its partial result).  Returns
(stored items, warnings, exception). -/
def enfInit (cls : EnfClass) (items : List PyObj) :
    List PyObj × List String × Option PyErr :=
  match checks_type cls items none none none with
  | (_, ws, some e) => ([], ws, some e)
  | (ys, ws, none) => (ys, ws, none)

/-- `_TypeEnforcer.append(item)`:
`self.check_type(item, len(self)); super().append(item)`.  The check runs
with the class-level `emit` action; the item is stored only when the check
does not raise. -/
def enfAppend (st : EnfState) (item : PyObj) :
    EnfState × List String × Option PyErr :=
  match check_type st.cls item (PyVal.intv st.data.length) none with
  | .error e => (st, [], some e)
  | .ok ws => ({ st with data := st.data ++ [item] }, ws, none)

/-- `_TypeEnforcer.extend(itr)`: `super().extend(self.checks_type(itr))`.
`list.extend` appends each yielded item as it is produced, so on an exception
the already-yielded prefix remains stored. -/
def enfExtend (st : EnfState) (items : List PyObj) :
    EnfState × List String × Option PyErr :=
  match checks_type st.cls items none none none with
  | (ys, ws, err) => ({ st with data := st.data ++ ys }, ws, err)

/-
Class synthesis: the `OfTypes` metaclass.

A base class appearing in a class statement is abstracted by the data
`_get_allowed_types` reads off it: whether it `issubclass`es `abc.Container`,
whether it `issubclass`es `_TypeEnforcer` (and then its `_allowed_types`),
and the concatenated `_allowed_types` of those of its own `__bases__` that
are instances of the calling metaclass (the one-level walk collecting
previously established allow-lists).
-/

/-- Abstraction of one base class, as inspected by
`OfTypes._get_allowed_types`. -/
structure BaseInfo where
  isContainer : Bool
  isEnforcer : Bool
  allowedTypes : List PyType
  basesEnforcerTypes : List PyType
  deriving DecidableEq

/-- `collections.UserList` as a base: a container, not an enforcer, with no
enforcer ancestors. -/
def UserListBase : BaseInfo :=
  { isContainer := true, isEnforcer := false, allowedTypes := [], basesEnforcerTypes := [] }

/-- The enumerated loop body of `_get_allowed_types`.  The enforcer index and
`requested_allowed_types` are bound together (in the source both are assigned
in the same branch; `requested_allowed_types` is otherwise unbound).  Later
matches overwrite earlier ones, as in the Python loop. -/
def getAllowedAux (i : Nat) (enf : Option (Nat × List PyType)) (cnt : Option Nat)
    (prev : List PyType) : List BaseInfo → Option (Nat × List PyType) × Option Nat × List PyType
  | [] => (enf, cnt, prev)
  | b :: rest =>
    getAllowedAux (i + 1)
      (if b.isEnforcer then some (i, b.allowedTypes) else enf)
      (if b.isContainer then some i else cnt)
      (prev ++ b.basesEnforcerTypes) rest

/-- `OfTypes._get_allowed_types(bases)`: returns
(`idx_enf` with `requested_allowed_types`, `idx_cnt`,
`previous_allowed_types`).  A `none` first component corresponds to the
`UnboundLocalError` the source hits on its `return` when no base is a
`_TypeEnforcer`. -/
def _get_allowed_types (bases : List BaseInfo) :
    Option (Nat × List PyType) × Option Nat × List PyType :=
  getAllowedAux 0 none none [] bases

/-- The `TypeError` message of `_check_allowed_types`. -/
def conflictMsg (newT allowedT : PyType) (name : String) : String :=
  "Multiple incompatible type restrictions (" ++ typeRepr newT ++ ", " ++ typeRepr allowedT ++
    ") requested in different bases of container class " ++ name ++ "."

/-- The outer loop of `_check_allowed_types`.  The inner
`for new in requested: if issubclass(new, allowed): break / raise` examines
only the FIRST requested type: it breaks if that one is a subclass of
`allowed` and raises otherwise (an empty `requested` loops zero times and
falls through). -/
def checkLoop (name : String) (requested : List PyType) :
    List PyType → Except PyErr Unit
  | [] => .ok ()
  | allowed :: rest =>
    match requested with
    | [] => checkLoop name requested rest
    | newT :: _ =>
      if isSubclass newT allowed then checkLoop name requested rest
      else .error (.typeError (conflictMsg newT allowed name))

/-- `OfTypes._check_allowed_types(name, requested, previous)`. -/
def _check_allowed_types (name : String) (requested previous : List PyType) :
    Except PyErr Unit :=
  if previous.isEmpty then .ok ()
  else checkLoop name requested previous

/-- `', '.join(kls.__name__ for kls in requested)`. -/
def joinNames (ts : List PyType) : String :=
  String.intercalate ", " (ts.map PyType.name)

/-- The usage `TypeError` message of `make_bases` (misspelling of
"inheritence" as in the source). -/
def usageMsg (clsName : String) (requested : List PyType) : String :=
  "Using \x22" ++ clsName ++ "(" ++ joinNames requested ++
    ")\x22 without preceding container type in inheritence diagram. Did you mean to use \x22ListOf(" ++
    joinNames requested ++ ")\x22?"

/-- `(*bases[:i], b, *bases[i:])`. -/
def insertAt (l : List BaseInfo) (i : Nat) (b : BaseInfo) : List BaseInfo :=
  l.take i ++ b :: l.drop i

/-- `_bases.insert(idx_cnt, _bases.pop(idx_enf))` for `idx_cnt < idx_enf`.
The `none` branch is unreachable: `idx_enf` always comes from `enumerate`
over the list. -/
def movePop (l : List BaseInfo) (iEnf iCnt : Nat) : List BaseInfo :=
  match l[iEnf]? with
  | none => l
  | some e =>
    let popped := l.take iEnf ++ l.drop (iEnf + 1)
    popped.take iCnt ++ e :: popped.drop iCnt

/-- `OfTypes.make_bases(name, bases)`.  `clsIsListOf` models the `cls is
ListOf` test (the metaclass the class statement runs under); `clsName` is
`cls.__name__`, used in the usage message.

Faithful control flow: collect indices and allow-lists; raise
`UnboundLocalError` when no enforcer base was seen; run
`_check_allowed_types`; when no container base is present either inject
`UserList` at `idx_enf` (ListOf form; `idx_cnt` stays `None` so the result is
returned as-is) or raise the usage `TypeError`; otherwise move the enforcer
before the container only when `idx_cnt < idx_enf`. -/
def make_bases (clsName : String) (clsIsListOf : Bool) (bases : List BaseInfo) :
    Except PyErr (List BaseInfo) :=
  match _get_allowed_types bases with
  | (none, _, _) => .error .unboundLocal
  | (some (idxEnf, requested), idxCnt, prev) =>
    match _check_allowed_types clsName requested prev with
    | .error e => .error e
    | .ok _ =>
      match idxCnt with
      | none =>
        if clsIsListOf then .ok (insertAt bases idxEnf UserListBase)
        else .error (.typeError (usageMsg clsName requested))
      | some iCnt =>
        if iCnt < idxEnf then .ok (movePop bases idxEnf iCnt)
        else .ok bases

/-
`OfTypes.__new__`.  A positional argument is a string (the internal
class-creation call), a class object, a non-class instance, or one of the
`(bases, attrs)` components of the internal call.
-/

/-- One positional argument of `OfTypes.__new__`. -/
inductive PyArg
  | strA (s : String)
  | typeA (t : PyType)
  | instA (o : PyObj)
  | basesA (bs : List BaseInfo)
  | attrsA
  deriving DecidableEq

/-- `isinstance(arg, type)`. -/
def PyArg.isTypeArg : PyArg → Bool
  | .typeA _ => true
  | _ => false

/-- Extract the class from a class-object argument. -/
def PyArg.getType : PyArg → Option PyType
  | .typeA t => some t
  | _ => none

/-- The value of `OfTypes.__new__`: either the `ListOf` enforcer class made
by a direct call (carrying `_allowed_types`), or the class synthesized by the
internal `(name, bases, attrs)` call (carrying its final base tuple). -/
inductive NewResult
  | enforcerClass (name : String) (allowed : List PyType)
  | synthesized (name : String) (bases : List BaseInfo)
  deriving DecidableEq

/-- The internal class-creation path of `OfTypes.__new__`
(`name, bases, attrs = args` followed by
`super().__new__(cls, name, cls.make_bases(name, bases), attrs)`).
Unpacking into three names fails with `ValueError` when the argument count is
not 3; a 3-argument call whose components are not `(str, tuple, dict)` cannot
arise from the metaclass protocol and is mapped to a `TypeError`. -/
def internal_branch (clsName : String) (clsIsListOf : Bool) (args : List PyArg) :
    Except PyErr NewResult :=
  match args with
  | [.strA name, .basesA bs, .attrsA] =>
    (match make_bases clsName clsIsListOf bs with
     | .error e => .error e
     | .ok newBases => .ok (.synthesized name newBases))
  | _ =>
    if args.length < 3 then
      .error (.valueError ("not enough values to unpack (expected 3, got " ++
        toString args.length ++ ")"))
    else if args.length > 3 then
      .error (.valueError "too many values to unpack (expected 3)")
    else
      .error (.typeError "internal call with malformed (name, bases, attrs)")

/-- The direct-call path of `OfTypes.__new__` (e.g. `OfTypes(int)`): the
zero-argument guard (`len(args) == 0`, raising
`ValueError(f"...requires at least one argument...")`), then the loop raising
`TypeError` on the first non-class argument, then creation of the `ListOf`
class with `_allowed_types = tuple(args)`. -/
def direct_branch (clsName : String) (args : List PyArg) : Except PyErr NewResult :=
  if args.length = 0 then
    .error (.valueError (pyReprStr clsName ++
      "s constructor requires at least one argument: the allowed type(s)."))
  else
    match args.find? (fun a => !a.isTypeArg) with
    | some _ =>
      .error (.typeError ("Arguments to " ++ pyReprStr clsName ++
        " constructor should be classes."))
    | none => .ok (.enforcerClass "ListOf" (args.filterMap PyArg.getType))

/-- `OfTypes.__new__(cls, *args)`.  The very first operation is
`isinstance(args[0], str)`: with zero arguments the subscript raises
`IndexError` before any guard runs; a string first argument dispatches to the
internal class-creation branch, anything else to the direct-call branch. -/
def OfTypes_new (clsName : String) (clsIsListOf : Bool) (args : List PyArg) :
    Except PyErr NewResult :=
  match args with
  | [] => .error (.indexError "tuple index out of range")
  | .strA _ :: _ => internal_branch clsName clsIsListOf args
  | _ :: _ => direct_branch clsName args

/-- The class `OfTypes(int)` as a base of a later class statement: a
`_TypeEnforcer` subclass, not a container, whose own bases hold no further
enforcers. -/
def enfIntBase : BaseInfo :=
  { isContainer := false, isEnforcer := true, allowedTypes := [PyType.intT],
    basesEnforcerTypes := [] }

/-
Helper lemmas shared by the claim theorems.
-/

/-- With an empty `requested` list the inner loop of `_check_allowed_types`
never runs, so the outer loop always completes. -/
lemma checkLoop_nil_req (name : String) : ∀ prev, checkLoop name [] prev = .ok () := by
  intro prev
  induction prev with
  | nil => rfl
  | cons a t ih => simpa [checkLoop] using ih

/-- With a nonempty `requested` list, the outer loop succeeds iff the FIRST
requested type is a subclass of every previously established type. -/
lemma checkLoop_cons_req_ok_iff (name : String) (R : PyType) (rs : List PyType) :
    ∀ prev, (checkLoop name (R :: rs) prev = .ok () ↔ ∀ T ∈ prev, isSubclass R T = true) := by
  intro prev
  induction prev with
  | nil => simp [checkLoop]
  | cons a t ih =>
    by_cases h : isSubclass R a = true
    · simp [checkLoop, h, ih]
    · simp [checkLoop, h]

/-- Any error of the outer loop names the first requested type together with
some previously established type it fails to narrow. -/
lemma checkLoop_cons_req_error (name : String) (R : PyType) (rs : List PyType) :
    ∀ prev e, checkLoop name (R :: rs) prev = .error e →
      ∃ T ∈ prev, isSubclass R T = false ∧ e = .typeError (conflictMsg R T name) := by
  intro prev
  induction prev with
  | nil => intro e h; simp [checkLoop] at h
  | cons a t ih =>
    intro e h
    by_cases hs : isSubclass R a = true
    · simp only [checkLoop, hs, if_true] at h
      obtain ⟨T, hT, h2, h3⟩ := ih e h
      exact ⟨T, List.mem_cons_of_mem _ hT, h2, h3⟩
    · simp only [checkLoop, hs, if_false] at h
      refine ⟨a, List.mem_cons_self a t, by simpa using hs, ?_⟩
      cases h
      rfl

/-- The default-flag resolution of `checks_type` is the raise action. -/
lemma resolveEmit_default : resolveEmit none none none = .ok EmitKind.raiseTE := rfl

/-- `checks_type` with default flags runs the generator with the raise
action, regardless of the class-level `emit` attribute. -/
lemma checks_type_default (cls : EnfClass) (items : List PyObj) :
    checks_type cls items none none none = checksTypeRun cls EmitKind.raiseTE 0 items := rfl

/-- Under the raise action, a run over conforming items yields all of them,
emits nothing and raises nothing. -/
lemma run_all_ok (cls : EnfClass) (T : PyType) (hA : cls.allowed = [T]) :
    ∀ (items : List PyObj) (i : Int), (∀ o ∈ items, pyIsInstance o [T] = true) →
      checksTypeRun cls EmitKind.raiseTE i items = (items, [], none) := by
  intro items
  induction items with
  | nil => intro i _; rfl
  | cons o rest ih =>
    intro i h
    have ho : pyIsInstance o [T] = true := h o (List.mem_cons_self o rest)
    have hrec := ih (i + 1) (fun x hx => h x (List.mem_cons_of_mem _ hx))
    simp [checksTypeRun, check_type, hA, ho, hrec]

/-- Under the raise action, a run over a conforming prefix followed by a
non-conforming item yields exactly the prefix and raises the item-type
`TypeError` at the bad item's index. -/
lemma run_first_bad (cls : EnfClass) (T : PyType) (hA : cls.allowed = [T]) :
    ∀ (pre : List PyObj) (i : Int) (bad : PyObj) (rest : List PyObj),
      (∀ o ∈ pre, pyIsInstance o [T] = true) → pyIsInstance bad [T] = false →
      checksTypeRun cls EmitKind.raiseTE i (pre ++ bad :: rest)
        = (pre, [], some (.typeError
            (itemMsg cls.name false (typeRepr T) (PyVal.intv (i + pre.length)) bad.ty))) := by
  intro pre
  induction pre with
  | nil =>
    intro i bad rest _ hbad
    simp [checksTypeRun, check_type, hA, hbad]
  | cons o pre ih =>
    intro i bad rest hpre hbad
    have ho : pyIsInstance o [T] = true := hpre o (List.mem_cons_self o pre)
    have hrec := ih (i + 1) bad rest (fun x hx => hpre x (List.mem_cons_of_mem _ hx)) hbad
    simp [checksTypeRun, check_type, hA, ho, hrec, List.length_cons, Nat.cast_add, Nat.cast_one,
      add_assoc, add_comm, add_left_comm]

/-- Once the enforcer accumulator is `some`, it stays `some`. -/
lemma getAux_enf_some : ∀ (l : List BaseInfo) (i : Nat) (p : Nat × List PyType)
    (cnt : Option Nat) (prev : List PyType),
    ((getAllowedAux i (some p) cnt prev l).1).isSome = true := by
  intro l
  induction l with
  | nil => intro i p cnt prev; rfl
  | cons b rest ih =>
    intro i p cnt prev
    cases hb : b.isEnforcer <;> simp [getAllowedAux, hb] <;> apply ih

/-- If some base is an enforcer, `_get_allowed_types` binds
`requested_allowed_types` (no `UnboundLocalError`). -/
lemma getAux_enf_exists : ∀ (l : List BaseInfo), (∃ b ∈ l, b.isEnforcer = true) →
    ∀ (i : Nat) (enf : Option (Nat × List PyType)) (cnt : Option Nat) (prev : List PyType),
    ((getAllowedAux i enf cnt prev l).1).isSome = true := by
  intro l
  induction l with
  | nil =>
    rintro ⟨b, hb, _⟩
    cases hb
  | cons c rest ih =>
    rintro ⟨b, hb, hbe⟩ i enf cnt prev
    rcases List.mem_cons.mp hb with h | h
    · subst h
      simp [getAllowedAux, hbe, getAux_enf_some]
    · cases hc : c.isEnforcer
      · simp only [getAllowedAux, hc, if_false]
        exact ih ⟨b, h, hbe⟩ ..
      · simp [getAllowedAux, hc, getAux_enf_some]

/-- If no base is a container, `idx_cnt` stays `None`. -/
lemma getAux_cnt_none : ∀ (l : List BaseInfo), (∀ b ∈ l, b.isContainer = false) →
    ∀ (i : Nat) (enf : Option (Nat × List PyType)) (prev : List PyType),
    ((getAllowedAux i enf none prev l).2.1) = none := by
  intro l
  induction l with
  | nil => intro _ i enf prev; rfl
  | cons b rest ih =>
    intro h i enf prev
    have hb : b.isContainer = false := h b (List.mem_cons_self b rest)
    simp only [getAllowedAux, hb, if_false]
    exact ih (fun x hx => h x (List.mem_cons_of_mem _ hx)) ..

/-- If no base has enforcer ancestors, `previous_allowed_types` stays empty. -/
lemma getAux_prev_nil : ∀ (l : List BaseInfo), (∀ b ∈ l, b.basesEnforcerTypes = []) →
    ∀ (i : Nat) (enf : Option (Nat × List PyType)) (cnt : Option Nat),
    ((getAllowedAux i enf cnt [] l).2.2) = [] := by
  intro l
  induction l with
  | nil => intro _ i enf cnt; rfl
  | cons b rest ih =>
    intro h i enf cnt
    have hb : b.basesEnforcerTypes = [] := h b (List.mem_cons_self b rest)
    simp only [getAllowedAux, hb, List.append_nil]
    exact ih (fun x hx => h x (List.mem_cons_of_mem _ hx)) ..

/-
Claim theorems.
-/

/-- C1 (counterexample): the claim says synthesis succeeds whenever, for
every inherited type T, SOME requested type narrows T.  Here `bool` (second
requested type) is a subclass of the inherited `int`, so per the claim the
check should pass; the code nevertheless raises the composition `TypeError`
naming `(str, int)` because the inner loop only ever examines the first
requested type. -/
theorem C1_counterexample :
    (∀ T ∈ ([PyType.intT] : List PyType),
        ∃ R ∈ [PyType.strT, PyType.boolT], isSubclass R T = true) ∧
    _check_allowed_types "Derived" [PyType.strT, PyType.boolT] [PyType.intT]
      = .error (.typeError (conflictMsg PyType.strT PyType.intT "Derived")) :=
  ⟨by decide, rfl⟩

/-- C1 (amended): `_check_allowed_types` succeeds iff for every inherited
type T the FIRST requested type is a subclass of T (later requested types are
never examined); on failure the raised `TypeError` names the first requested
type together with an inherited type it does not narrow.  In particular, a
single requested T1 with T1 a subtype of the inherited T0 passes, and a
requested T0 that is not a subtype of the established T1 fails. -/
theorem C1_first_requested_only (name : String) (req prev : List PyType) :
    (_check_allowed_types name req prev = .ok () ↔
      ∀ T ∈ prev, ∀ R, req.head? = some R → isSubclass R T = true) ∧
    (∀ e, _check_allowed_types name req prev = .error e →
      ∃ R T, req.head? = some R ∧ T ∈ prev ∧ isSubclass R T = false ∧
        e = .typeError (conflictMsg R T name)) := by
  cases prev with
  | nil =>
    constructor
    · simp [_check_allowed_types]
    · intro e h
      simp [_check_allowed_types] at h
  | cons a t =>
    have hne : (a :: t).isEmpty = false := rfl
    constructor
    · rw [_check_allowed_types, hne]
      cases req with
      | nil =>
        simp [checkLoop_nil_req]
      | cons R rs =>
        rw [if_neg (by simp)]
        rw [checkLoop_cons_req_ok_iff]
        simp
    · intro e h
      rw [_check_allowed_types, hne, if_neg (by simp)] at h
      cases req with
      | nil =>
        rw [checkLoop_nil_req] at h
        cases h
      | cons R rs =>
        obtain ⟨T, hT, h2, h3⟩ := checkLoop_cons_req_error name R rs (a :: t) e h
        exact ⟨R, T, rfl, hT, h2, h3⟩

/-- C1 (witness): the narrowing scenario at concrete input: requesting `bool`
where `int` was established succeeds. -/
theorem C1_first_requested_only_witness :
    _check_allowed_types "Derived" [PyType.boolT] [PyType.intT] = .ok () :=
  ((C1_first_requested_only "Derived" [PyType.boolT] [PyType.intT]).1).mpr (by decide)

/-- C2 (code evidence): in the from-scratch `ListOf` form the injected
`UserList` is placed BEFORE the enforcer and the reordering step is skipped
(`idx_cnt` is still `None`), so the sequence capability precedes the
type-enforcing capability in the final base tuple — contrary to the claim.
In the explicit-base form the enforcer is indeed moved ahead of the
container. -/
theorem C2_base_order_eval :
    make_bases "ListOf" true [enfIntBase] = .ok [UserListBase, enfIntBase] ∧
    make_bases "OfTypes" false [UserListBase, enfIntBase] = .ok [enfIntBase, UserListBase] ∧
    UserListBase.isContainer = true ∧ enfIntBase.isEnforcer = true :=
  ⟨rfl, rfl, rfl, rfl⟩

/-- C3: on a container restricted to a single type T under the default raise
severity, `append` with a non-conforming item raises the item-type
`TypeError` (with the item's would-be index `len(self)`) and leaves the
container state — in particular its length — unchanged. -/
theorem C3_append_raise_unchanged (st : EnfState) (item : PyObj) (T : PyType)
    (hA : st.cls.allowed = [T]) (hE : st.cls.emit = EmitKind.raiseTE)
    (_hItems : ∀ o ∈ st.data, pyIsInstance o [T] = true)
    (hBad : pyIsInstance item [T] = false) :
    enfAppend st item
      = (st, [], some (.typeError
          (itemMsg st.cls.name false (typeRepr T) (PyVal.intv st.data.length) item.ty))) := by
  unfold enfAppend
  simp [check_type, hA, hE, hBad]

/-- C3 (witness): `Container = ListOf(int)` holding `[1, 2, 3]`;
`append("x")` raises and the data stays `[1, 2, 3]`. -/
theorem C3_append_raise_unchanged_witness :
    enfAppend ⟨⟨"Container", [PyType.intT], EmitKind.raiseTE⟩,
        [⟨PyType.intT, 1⟩, ⟨PyType.intT, 2⟩, ⟨PyType.intT, 3⟩]⟩ ⟨PyType.strT, 0⟩
      = (⟨⟨"Container", [PyType.intT], EmitKind.raiseTE⟩,
          [⟨PyType.intT, 1⟩, ⟨PyType.intT, 2⟩, ⟨PyType.intT, 3⟩]⟩, [],
         some (.typeError (itemMsg "Container" false (typeRepr PyType.intT)
           (PyVal.intv 3) PyType.strT))) :=
  C3_append_raise_unchanged _ ⟨PyType.strT, 0⟩ PyType.intT rfl rfl (by decide) (by decide)

/-- C4 (code evidence): invoking the factory with zero arguments raises
`IndexError` from the `args[0]` subscript in `isinstance(args[0], str)` —
not the configuration `ValueError` whose guard (`len(args) == 0`) is
unreachable; a non-class argument does raise the configuration `TypeError`,
and a well-formed call creates the enforcer class before returning. -/
theorem C4_factory_arg_errors :
    OfTypes_new "OfTypes" false [] = .error (.indexError "tuple index out of range") ∧
    OfTypes_new "OfTypes" false [PyArg.instA ⟨PyType.intT, 5⟩]
      = .error (.typeError "Arguments to \x27OfTypes\x27 constructor should be classes.") ∧
    OfTypes_new "OfTypes" false [PyArg.typeA PyType.intT]
      = .ok (.enforcerClass "ListOf" [PyType.intT]) :=
  ⟨rfl, rfl, rfl⟩

/-- C5 (counterexample): after the severity-setting operation installs the
warn action class-wide, constructing from an iterable with a non-conforming
item still raises (the exception component is set) and stores nothing —
refuting "when the active action is warn or silent, construction does not
abort and all items are stored". -/
theorem C5_counterexample :
    type_checking ⟨"Container", [PyType.intT], EmitKind.raiseTE⟩ (PyVal.intv 0)
      = .ok ⟨"Container", [PyType.intT], EmitKind.warn⟩ ∧
    (enfInit ⟨"Container", [PyType.intT], EmitKind.warn⟩ [⟨PyType.strT, 0⟩]).2.2.isSome = true ∧
    (enfInit ⟨"Container", [PyType.intT], EmitKind.warn⟩ [⟨PyType.strT, 0⟩]).1 = [] :=
  ⟨rfl, rfl, rfl⟩

/-- C5 (amended): instance construction validates items with the per-call
default action (raise), IGNORING the class-level EnforcementAction: whatever
`emit` is configured, an all-conforming iterable is stored in full, and a
first non-conforming item aborts construction with the item-type `TypeError`
(nothing is stored, since `list(generator)` discards its partial result). -/
theorem C5_init_always_raises (cls : EnfClass) (T : PyType) (hA : cls.allowed = [T]) :
    (∀ items : List PyObj, (∀ o ∈ items, pyIsInstance o [T] = true) →
        enfInit cls items = (items, [], none)) ∧
    (∀ (pre : List PyObj) (bad : PyObj) (rest : List PyObj),
        (∀ o ∈ pre, pyIsInstance o [T] = true) → pyIsInstance bad [T] = false →
        enfInit cls (pre ++ bad :: rest)
          = ([], [], some (.typeError (itemMsg cls.name false (typeRepr T)
              (PyVal.intv pre.length) bad.ty)))) := by
  constructor
  · intro items h
    unfold enfInit
    rw [checks_type_default, run_all_ok cls T hA items 0 h]
  · intro pre bad rest hpre hbad
    unfold enfInit
    rw [checks_type_default, run_first_bad cls T hA pre 0 bad rest hpre hbad]
    simp

/-- C5 (witness): a warn-configured class still raises from `__init__` on the
second (non-conforming) item. -/
theorem C5_init_always_raises_witness :
    enfInit ⟨"Container", [PyType.intT], EmitKind.warn⟩ [⟨PyType.intT, 1⟩, ⟨PyType.strT, 0⟩]
      = ([], [], some (.typeError (itemMsg "Container" false (typeRepr PyType.intT)
          (PyVal.intv 1) PyType.strT))) :=
  (C5_init_always_raises _ PyType.intT rfl).2 [⟨PyType.intT, 1⟩] ⟨PyType.strT, 0⟩ []
    (by decide) (by decide)

/-- C6 (counterexample): the severity-setting operation does NOT accept a
named level: `type_checking("warn")` raises `ValueError` from
`int("warn")` instead of installing the warn action. -/
theorem C6_counterexample :
    type_checking ⟨"Container", [PyType.intT], EmitKind.raiseTE⟩ (PyVal.strv "warn")
      = .error (.valueError "invalid literal for int() with base 10: \x27warn\x27") :=
  rfl

/-- C6 (amended): the severity-setting operation accepts an integer (or an
integer-parsable string) keyed raise=1 / warn=0 / silent=-1; a named level
such as "warn" raises `ValueError`.  After setting severity 0, `append` with
a non-conforming item returns normally, emits exactly one diagnostic, and the
item is present afterwards; after setting severity -1 the item is likewise
stored with no diagnostic. -/
theorem C6_severity_int_levels (st : EnfState) (item : PyObj) (T : PyType)
    (hA : st.cls.allowed = [T]) (hBad : pyIsInstance item [T] = false) :
    (type_checking st.cls (PyVal.intv 0) = .ok { st.cls with emit := EmitKind.warn }) ∧
    (enfAppend ⟨{ st.cls with emit := EmitKind.warn }, st.data⟩ item
      = (⟨{ st.cls with emit := EmitKind.warn }, st.data ++ [item]⟩,
         [itemMsg st.cls.name false (typeRepr T) (PyVal.intv st.data.length) item.ty], none)) ∧
    (type_checking st.cls (PyVal.intv (-1)) = .ok { st.cls with emit := EmitKind.echo }) ∧
    (enfAppend ⟨{ st.cls with emit := EmitKind.echo }, st.data⟩ item
      = (⟨{ st.cls with emit := EmitKind.echo }, st.data ++ [item]⟩, [], none)) := by
  refine ⟨rfl, ?_, rfl, ?_⟩
  · unfold enfAppend
    simp [check_type, hA, hBad]
  · unfold enfAppend
    simp [check_type, hA, hBad]

/-- C6 (witness): the warn and silent scenarios at a concrete class and
item. -/
theorem C6_severity_int_levels_witness :
    (type_checking ⟨"Container", [PyType.intT], EmitKind.raiseTE⟩ (PyVal.intv 0)
      = .ok ⟨"Container", [PyType.intT], EmitKind.warn⟩) ∧
    (enfAppend ⟨⟨"Container", [PyType.intT], EmitKind.warn⟩, []⟩ ⟨PyType.strT, 7⟩
      = (⟨⟨"Container", [PyType.intT], EmitKind.warn⟩, [⟨PyType.strT, 7⟩]⟩,
         [itemMsg "Container" false (typeRepr PyType.intT) (PyVal.intv 0) PyType.strT], none)) ∧
    (type_checking ⟨"Container", [PyType.intT], EmitKind.raiseTE⟩ (PyVal.intv (-1))
      = .ok ⟨"Container", [PyType.intT], EmitKind.echo⟩) ∧
    (enfAppend ⟨⟨"Container", [PyType.intT], EmitKind.echo⟩, []⟩ ⟨PyType.strT, 7⟩
      = (⟨⟨"Container", [PyType.intT], EmitKind.echo⟩, [⟨PyType.strT, 7⟩]⟩, [], none)) :=
  C6_severity_int_levels ⟨⟨"Container", [PyType.intT], EmitKind.raiseTE⟩, []⟩
    ⟨PyType.strT, 7⟩ PyType.intT rfl (by decide)

/-- C7: `extend` interleaves validation and storage in supplied order: an
all-conforming iterable is appended in full; with a conforming prefix
followed by a non-conforming item, the whole call raises the item-type
`TypeError` at that item's index while the already-yielded prefix remains
stored after the old contents. -/
theorem C7_extend_interleaved (st : EnfState) (T : PyType) (hA : st.cls.allowed = [T]) :
    (∀ items : List PyObj, (∀ o ∈ items, pyIsInstance o [T] = true) →
        enfExtend st items = ({ st with data := st.data ++ items }, [], none)) ∧
    (∀ (pre : List PyObj) (bad : PyObj) (rest : List PyObj),
        (∀ o ∈ pre, pyIsInstance o [T] = true) → pyIsInstance bad [T] = false →
        enfExtend st (pre ++ bad :: rest)
          = ({ st with data := st.data ++ pre }, [],
             some (.typeError (itemMsg st.cls.name false (typeRepr T)
               (PyVal.intv pre.length) bad.ty)))) := by
  constructor
  · intro items h
    unfold enfExtend
    rw [checks_type_default, run_all_ok st.cls T hA items 0 h]
  · intro pre bad rest hpre hbad
    unfold enfExtend
    rw [checks_type_default, run_first_bad st.cls T hA pre 0 bad rest hpre hbad]
    simp

/-- C7 (witness): extending `[9]` with `[1, "x", 3]` keeps the conforming
prefix `1`, raises at index 1, and drops the tail. -/
theorem C7_extend_interleaved_witness :
    enfExtend ⟨⟨"Container", [PyType.intT], EmitKind.raiseTE⟩, [⟨PyType.intT, 9⟩]⟩
        [⟨PyType.intT, 1⟩, ⟨PyType.strT, 2⟩, ⟨PyType.intT, 3⟩]
      = (⟨⟨"Container", [PyType.intT], EmitKind.raiseTE⟩,
          [⟨PyType.intT, 9⟩, ⟨PyType.intT, 1⟩]⟩, [],
         some (.typeError (itemMsg "Container" false (typeRepr PyType.intT)
           (PyVal.intv 1) PyType.strT))) :=
  (C7_extend_interleaved _ PyType.intT rfl).2 [⟨PyType.intT, 1⟩] ⟨PyType.strT, 2⟩
    [⟨PyType.intT, 3⟩] (by decide) (by decide)

/-- C8: with no container capability among the bases (and some enforcer with
no inherited allow-lists in play), the `ListOf` form injects `UserList` into
the base tuple and synthesis succeeds, while any other metaclass fails with
the usage `TypeError` whose message instructs the caller to use
`ListOf(...)`. -/
theorem C8_missing_container (bases : List BaseInfo)
    (h1 : ∀ b ∈ bases, b.isContainer = false)
    (h2 : ∃ b ∈ bases, b.isEnforcer = true)
    (h3 : ∀ b ∈ bases, b.basesEnforcerTypes = []) :
    (∃ pre post, make_bases "ListOf" true bases = .ok (pre ++ UserListBase :: post) ∧
        bases = pre ++ post) ∧
    (∀ clsName : String, ∃ req : String,
        make_bases clsName false bases = .error (.typeError
          ("Using \x22" ++ clsName ++ "(" ++ req ++
            ")\x22 without preceding container type in inheritence diagram. Did you mean to use \x22ListOf(" ++
            req ++ ")\x22?"))) := by
  have hsome : ((_get_allowed_types bases).1).isSome = true :=
    getAux_enf_exists bases h2 0 none none []
  obtain ⟨⟨iE, req⟩, hE⟩ := Option.isSome_iff_exists.mp hsome
  have hcnt : (_get_allowed_types bases).2.1 = none := getAux_cnt_none bases h1 0 none []
  have hprev : (_get_allowed_types bases).2.2 = [] := getAux_prev_nil bases h3 0 none none
  have hget : _get_allowed_types bases = (some (iE, req), none, []) := by
    rw [← hE, ← hcnt, ← hprev]
  constructor
  · refine ⟨bases.take iE, bases.drop iE, ?_, (List.take_append_drop iE bases).symm⟩
    simp [make_bases, hget, _check_allowed_types, insertAt]
  · intro clsName
    refine ⟨joinNames req, ?_⟩
    simp [make_bases, hget, _check_allowed_types, usageMsg]

/-- C8 (witness): the two forms at the concrete base list `(OfTypes(int),)`. -/
theorem C8_missing_container_witness :
    (∃ pre post, make_bases "ListOf" true [enfIntBase] = .ok (pre ++ UserListBase :: post) ∧
        [enfIntBase] = pre ++ post) ∧
    (∃ req : String, make_bases "OfTypes" false [enfIntBase] = .error (.typeError
      ("Using \x22OfTypes(" ++ req ++
        ")\x22 without preceding container type in inheritence diagram. Did you mean to use \x22ListOf(" ++
        req ++ ")\x22?"))) := by
  have h := C8_missing_container [enfIntBase] (by decide)
    ⟨enfIntBase, List.mem_cons_self _ _, by decide⟩ (by decide)
  exact ⟨h.1, h.2 "OfTypes"⟩

/-- C9 (code evidence): with more than one allowed type, a failing check
under warn severity raises
`TypeError: tuple indices must be integers or slices, not ellipsis` from
`self._allowed_types[...]` before any diagnostic is built: no warning is
emitted and `append` stores nothing. -/
theorem C9_ellipsis_eval :
    enfAppend ⟨⟨"Container", [PyType.intT, PyType.floatT], EmitKind.warn⟩, []⟩ ⟨PyType.strT, 0⟩
      = (⟨⟨"Container", [PyType.intT, PyType.floatT], EmitKind.warn⟩, []⟩, [],
         some (.typeError "tuple indices must be integers or slices, not ellipsis")) ∧
    ([PyType.intT, PyType.floatT].length > 1) :=
  ⟨rfl, by decide⟩

/-- C10: a string first positional argument dispatches `OfTypes.__new__` to
the internal class-creation branch, bypassing the argument validation of the
direct-call branch entirely; in particular a single string argument fails
while unpacking `(name, bases, attrs)` with `ValueError`, not with the
documented configuration error. -/
theorem C10_string_dispatch :
    (∀ (s : String) (rest : List PyArg),
        OfTypes_new "OfTypes" false (PyArg.strA s :: rest)
          = internal_branch "OfTypes" false (PyArg.strA s :: rest)) ∧
    OfTypes_new "OfTypes" false [PyArg.strA "hello"]
      = .error (.valueError "not enough values to unpack (expected 3, got 1)") :=
  ⟨fun _ _ => rfl, rfl⟩
